import Mathlib

/-!
Shallow embedding of the core pipeline of the Sri Lanka political war tracker
(`scraper.py`): mention detection, keyword sentiment classification,
per-player aggregation, metric finalization and report generation.
Texts are lists of characters; Python floats are modelled by exact rationals,
with Python's `round` (banker's rounding to a number of decimal digits)
modelled by `pyRound`.
-/

namespace PoliticalWar

abbrev Text := List Char

/-- `text.lower()` on a character list (ASCII lowering, as used by the texts
the pipeline handles). -/
def lowerText (t : Text) : Text := t.map Char.toLower

/-- Does `p` occur at the start of `s`? -/
def startsWith : Text → Text → Bool
  | [], _ => true
  | _ :: _, [] => false
  | a :: p, b :: s => a == b && startsWith p s

/-- Python's substring test `p in s` on character lists. -/
def hasSub (p : Text) : Text → Bool
  | [] => startsWith p []
  | c :: rest => startsWith p (c :: rest) || hasSub p rest

/-- The five tracked players of the `PLAYERS` configuration. -/
inductive Player
  | anura | dilith | sajith | namal | ranil
deriving DecidableEq

/-- Configuration iteration order of `PLAYERS` (dict insertion order). -/
def playersOrder : List Player :=
  [Player.anura, Player.dilith, Player.sajith, Player.namal, Player.ranil]

/-- Position of a player in the configuration iteration order. -/
def idx : Player → ℕ
  | Player.anura => 0
  | Player.dilith => 1
  | Player.sajith => 2
  | Player.namal => 3
  | Player.ranil => 4

/-- The `names` alias lists of the `PLAYERS` configuration. -/
def names : Player → List Text
  | Player.anura =>
      ["anura", "kumara", "dissanayake", "akd", "npp", "jvp", "president"].map String.toList
  | Player.dilith =>
      ["dilith", "jayaweera", "mjp", "derana", "sarwajana", "sarwajana balaya"].map String.toList
  | Player.sajith =>
      ["sajith", "premadasa", "sjb", "samagi", "samagi balawegaya"].map String.toList
  | Player.namal =>
      ["namal", "rajapaksa", "slpp", "mahinda", "gotabaya", "basil", "gota"].map String.toList
  | Player.ranil =>
      ["ranil", "wickremesinghe", "unp", "wickremasinghe", "old president"].map String.toList

/-- `detect_player`: the per-player alias score
`sum(3 if name in text_lower else 0 for name in data[names])`. -/
def detect_player_score (text : Text) (p : Player) : ℕ :=
  ((names p).map (fun n => if hasSub n (lowerText text) then 3 else 0)).sum

/-- `detect_player`: a player is mentioned iff its alias score is positive. -/
def detect_player (text : Text) (p : Player) : Bool :=
  0 < detect_player_score text p

/-- The `positive` keyword list of `analyze_sentiment`. -/
def positiveWords : List Text :=
  ["win", "victory", "success", "good", "great", "excellent", "superb",
   "achieve", "deliver", "promise kept", "ජයග්‍රහණය", "සුපිරි", "නියම"].map String.toList

/-- The `negative` keyword list of `analyze_sentiment`. -/
def negativeWords : List Text :=
  ["fail", "loss", "bad", "worst", "corrupt", "lie", "cheat", "disaster",
   "crisis", "broken", "useless", "pathetic", "පාවී", "අසමත්", "වැරදි"].map String.toList

/-- The `crisis` keyword list of `analyze_sentiment`. -/
def crisisWords : List Text :=
  ["protest", "strike", "uprising", "revolution", "topple", "overthrow",
   "emergency", "crisis", "collapse", "imf", "tariff", "unemployment",
   "උද්ඝෝෂණ", "වර්ජන", "අර්බුදය"].map String.toList

/-- `pos_count = sum(1 for w in positive if w in text_lower)`. -/
def posCount (text : Text) : ℕ :=
  (positiveWords.filter (fun w => hasSub w (lowerText text))).length

/-- `neg_count = sum(1 for w in negative if w in text_lower)`. -/
def negCount (text : Text) : ℕ :=
  (negativeWords.filter (fun w => hasSub w (lowerText text))).length

/-- `crisis_count = sum(1 for w in crisis if w in text_lower)`. -/
def crisisCount (text : Text) : ℕ :=
  (crisisWords.filter (fun w => hasSub w (lowerText text))).length

/-- Round a rational to the nearest integer, ties to the even integer
(Python's `round` tie-breaking). -/
def rhe (q : ℚ) : ℤ :=
  let f := ⌊q⌋
  if q - f < 1/2 then f
  else if (1 : ℚ)/2 < q - f then f + 1
  else if f % 2 = 0 then f else f + 1

/-- Python's `round(q, d)`: round to `d` decimal digits, ties to even. -/
def pyRound (d : ℕ) (q : ℚ) : ℚ :=
  (rhe (q * 10 ^ d) : ℚ) / 10 ^ d

/-- Sentiment labels. -/
inductive Sentiment
  | positive | negative | neutral
deriving DecidableEq

/-- The record returned by `analyze_sentiment`. -/
structure SentimentResult where
  sentiment : Sentiment
  score : ℚ
  crisis_indicators : ℕ
deriving DecidableEq

/-- `analyze_sentiment(text)`. -/
def analyze_sentiment (text : Text) : SentimentResult :=
  let p := posCount text
  let n := negCount text
  let c := crisisCount text
  if n < p then
    ⟨Sentiment.positive, pyRound 2 (1/2 + min ((p : ℚ) * (1/10)) (1/2)), c⟩
  else if p < n then
    ⟨Sentiment.negative, pyRound 2 (1/2 - min ((n : ℚ) * (1/10)) (1/2)), c⟩
  else
    ⟨Sentiment.neutral, pyRound 2 (1/2), c⟩

/-- An article, as fed to `calculate_metrics` (the fields it reads). -/
structure Article where
  title : Text
  source : Text
deriving DecidableEq

/-- A headline record appended to a player's `headlines` list. -/
structure Headline where
  title : Text
  sentiment : Sentiment
  source : Text
deriving DecidableEq

/-- A player's running statistics during aggregation. -/
structure PStats where
  mentions : ℕ
  positive : ℕ
  negative : ℕ
  neutral : ℕ
  crisis_associated : ℕ
  headlines : List Headline
deriving DecidableEq

/-- The zero-initialized `player_stats` of `calculate_metrics`. -/
def initStats : Player → PStats := fun _ => ⟨0, 0, 0, 0, 0, []⟩

/-- One iteration of the article loop of `calculate_metrics`: fan the article
out to every player its title mentions. -/
def accumArticle (st : Player → PStats) (a : Article) : Player → PStats :=
  fun pl =>
    if detect_player a.title pl then
      let s := analyze_sentiment a.title
      let cur := st pl
      { mentions := cur.mentions + 1
        positive := cur.positive + (if s.sentiment = Sentiment.positive then 1 else 0)
        negative := cur.negative + (if s.sentiment = Sentiment.negative then 1 else 0)
        neutral := cur.neutral + (if s.sentiment = Sentiment.neutral then 1 else 0)
        crisis_associated := cur.crisis_associated + s.crisis_indicators
        headlines := cur.headlines ++ [⟨a.title, s.sentiment, a.source⟩] }
    else st pl

/-- The article loop of `calculate_metrics` over a whole article list. -/
def processArticles (articles : List Article) : Player → PStats :=
  articles.foldl accumArticle initStats

/-- `total_mentions = sum(s[mentions] for s in player_stats.values())`. -/
def total_mentions_of (st : Player → PStats) : ℕ :=
  (playersOrder.map (fun p => (st p).mentions)).sum

/-- A player's statistics after finalization (derived fields added). -/
structure FStats where
  mentions : ℕ
  positive : ℕ
  negative : ℕ
  neutral : ℕ
  crisis_associated : ℕ
  headlines : List Headline
  media_share : ℚ
  sentiment_score : ℚ
deriving DecidableEq

/-- The finalization loop of `calculate_metrics`: derive `media_share` and
`sentiment_score` for each player. -/
def finalizeStats (st : Player → PStats) (total : ℕ) : Player → FStats := fun pl =>
  let s := st pl
  if 0 < s.mentions then
    ⟨s.mentions, s.positive, s.negative, s.neutral, s.crisis_associated, s.headlines,
      pyRound 1 ((s.mentions : ℚ) / (max 1 total : ℕ) * 100),
      pyRound 2 (((s.positive : ℚ) - (s.negative : ℚ)) / (s.mentions : ℚ))⟩
  else
    ⟨s.mentions, s.positive, s.negative, s.neutral, s.crisis_associated, s.headlines, 0, 0⟩

/-- `max(player_stats.items(), key=lambda x: x[1][mentions])[0]`: Python's
`max` keeps the first item attaining the maximum, in dict iteration order. -/
def domPlayer (st : Player → PStats) : Player :=
  [Player.dilith, Player.sajith, Player.namal, Player.ranil].foldl
    (fun best p => if (st best).mentions < (st p).mentions then p else best)
    Player.anura

/-- The metrics dict built by `calculate_metrics` (the computed fields; the
`none` sentinel of `dominant_player` is modelled by `Option.none`). -/
structure Metrics where
  players : Player → FStats
  total_articles : ℕ
  total_mentions : ℕ
  war_intensity : ℚ
  dominant_player : Option Player

/-- `calculate_metrics(articles)`. -/
def calculate_metrics (articles : List Article) : Metrics :=
  let st := processArticles articles
  let tm := total_mentions_of st
  { players := finalizeStats st tm
    total_articles := articles.length
    total_mentions := tm
    war_intensity :=
      min 10 (((playersOrder.map (fun p => (st p).crisis_associated)).sum : ℚ)
        / (max 1 articles.length : ℕ) * 5)
    dominant_player := if 0 < tm then some (domPlayer st) else none }

/-- Posture labels of the battlefield status. -/
inductive Posture
  | attacking | defending | neutral
deriving DecidableEq

/-- Trend labels of the battlefield status. -/
inductive Trend
  | rising | falling | stable
deriving DecidableEq

/-- A player's entry in `report[battlefield_status]`. -/
structure Status where
  media_presence : ℚ
  public_sentiment : ℚ
  posture : Posture
  trend : Trend
  crisis_exposure : ℕ
deriving DecidableEq

/-- The per-player status computation of `generate_report`. -/
def statusOf (s : FStats) : Status :=
  if 0 < s.mentions then
    { media_presence := s.media_share
      public_sentiment := s.sentiment_score
      posture :=
        if (2 : ℚ)/5 < (s.negative : ℚ) / (s.mentions : ℚ) then Posture.attacking
        else if (2 : ℚ)/5 < (s.positive : ℚ) / (s.mentions : ℚ) then Posture.defending
        else Posture.neutral
      trend :=
        if (1 : ℚ)/10 < s.sentiment_score then Trend.rising
        else if s.sentiment_score < -(1/10) then Trend.falling
        else Trend.stable
      crisis_exposure := s.crisis_associated }
  else
    ⟨s.media_share, s.sentiment_score, Posture.neutral, Trend.stable, s.crisis_associated⟩

/-- A named prediction entry of `report[predictions]`. -/
structure Prediction where
  move : String
  confidence : ℚ
  timing : String
deriving DecidableEq

/-- The coalition prediction entry (`leader` sentinel modelled by `Option`). -/
structure Coalition where
  formation_probability : ℚ
  timeline : String
  leader : Option Player
deriving DecidableEq

/-- The report built by `generate_report` (computed fields). -/
structure Report where
  battlefield_status : Player → Status
  anura_prediction : Prediction
  dilith_prediction : Prediction
  coalition : Coalition

/-- `generate_report(metrics)`. -/
def generate_report (m : Metrics) : Report :=
  let status := fun pl => statusOf (m.players pl)
  { battlefield_status := status
    anura_prediction :=
      if (status Player.anura).trend = Trend.falling then
        ⟨"Emergency populist measure (fuel subsidy/teacher wage hike)", 82/100, "24-48 hours"⟩
      else
        ⟨"Continue IMF path, ignore opposition", 75/100, "Ongoing"⟩
    dilith_prediction :=
      if (status Player.dilith).trend = Trend.rising then
        ⟨"Escalate attacks, formalize opposition coalition", 79/100, "Next week"⟩
      else
        ⟨"Consolidate gains, prepare for Budget battle", 71/100, "2 weeks"⟩
    coalition :=
      if (m.total_mentions : ℚ) * (6/10) <
          (([Player.dilith, Player.sajith, Player.namal].map
            (fun p => (m.players p).mentions)).sum : ℚ) then
        ⟨73/100, "2-4 weeks", some Player.dilith⟩
      else
        ⟨45/100, "Uncertain", none⟩ }

theorem rhe_intCast (m : ℤ) : rhe (m : ℚ) = m := by
  simp only [rhe, Int.floor_intCast, sub_self]
  norm_num

theorem pyRound_eq_of_mul (d : ℕ) (q : ℚ) (m : ℤ) (h : q * 10 ^ d = (m : ℚ)) :
    pyRound d q = q := by
  unfold pyRound
  rw [h, rhe_intCast, ← h, mul_div_assoc, div_self (by positivity), mul_one]

theorem min_tenth (p : ℕ) :
    min ((p : ℚ) * (1/10)) (1/2) = ((min p 5 : ℕ) : ℚ) * (1/10) := by
  rcases le_total p 5 with h | h
  · rw [min_eq_left (by
      have : (p : ℚ) ≤ 5 := by exact_mod_cast h
      linarith), Nat.min_eq_left h]
  · rw [min_eq_right (by
      have : (5 : ℚ) ≤ (p : ℚ) := by exact_mod_cast h
      linarith), Nat.min_eq_right h]
    norm_num

theorem score_pos (p : ℕ) :
    pyRound 2 (1/2 + min ((p : ℚ) * (1/10)) (1/2)) =
      1/2 + min ((p : ℚ) * (1/10)) (1/2) := by
  rw [min_tenth]
  exact pyRound_eq_of_mul 2 _ (50 + 10 * min p 5) (by push_cast; ring)

theorem score_neg (n : ℕ) :
    pyRound 2 (1/2 - min ((n : ℚ) * (1/10)) (1/2)) =
      1/2 - min ((n : ℚ) * (1/10)) (1/2) := by
  rw [min_tenth]
  exact pyRound_eq_of_mul 2 _ (50 - 10 * min n 5) (by push_cast; ring)

theorem pyRound_half : pyRound 2 ((1 : ℚ)/2) = 1/2 :=
  pyRound_eq_of_mul 2 _ 50 (by norm_num)

theorem analyze_sentiment_eq (t : Text) :
    analyze_sentiment t =
      if negCount t < posCount t then
        ⟨Sentiment.positive, 1/2 + min ((posCount t : ℚ) * (1/10)) (1/2), crisisCount t⟩
      else if posCount t < negCount t then
        ⟨Sentiment.negative, 1/2 - min ((negCount t : ℚ) * (1/10)) (1/2), crisisCount t⟩
      else
        ⟨Sentiment.neutral, 1/2, crisisCount t⟩ := by
  unfold analyze_sentiment
  dsimp only
  simp only [score_pos, score_neg, pyRound_half]

theorem score_bounds_pos (p : ℕ) :
    0 ≤ 1/2 + min ((p : ℚ) * (1/10)) (1/2) ∧
      1/2 + min ((p : ℚ) * (1/10)) (1/2) ≤ 1 := by
  have h1 : 0 ≤ min ((p : ℚ) * (1/10)) (1/2) := le_min (by positivity) (by norm_num)
  have h2 : min ((p : ℚ) * (1/10)) (1/2) ≤ 1/2 := min_le_right _ _
  constructor <;> linarith

/-- Claim C1: the classifier counts positive and negative keywords as
case-insensitive substrings and returns exactly one label — positive with
score `0.5 + min(pos_count * 0.1, 0.5)` when `pos_count > neg_count`,
negative with score `0.5 - min(neg_count * 0.1, 0.5)` when
`neg_count > pos_count`, neutral with score `0.5` when equal — the rounding
to 2 decimal places leaves these values unchanged, and the score always
lies in `[0, 1]`. -/
theorem C1_classifier_spec (text : Text) :
    ((analyze_sentiment text).sentiment = Sentiment.positive ∨
      (analyze_sentiment text).sentiment = Sentiment.negative ∨
      (analyze_sentiment text).sentiment = Sentiment.neutral) ∧
    (negCount text < posCount text →
      (analyze_sentiment text).sentiment = Sentiment.positive ∧
      (analyze_sentiment text).score =
        pyRound 2 (1/2 + min ((posCount text : ℚ) * (1/10)) (1/2)) ∧
      (analyze_sentiment text).score = 1/2 + min ((posCount text : ℚ) * (1/10)) (1/2)) ∧
    (posCount text < negCount text →
      (analyze_sentiment text).sentiment = Sentiment.negative ∧
      (analyze_sentiment text).score =
        pyRound 2 (1/2 - min ((negCount text : ℚ) * (1/10)) (1/2)) ∧
      (analyze_sentiment text).score = 1/2 - min ((negCount text : ℚ) * (1/10)) (1/2)) ∧
    (posCount text = negCount text →
      (analyze_sentiment text).sentiment = Sentiment.neutral ∧
      (analyze_sentiment text).score = 1/2) ∧
    0 ≤ (analyze_sentiment text).score ∧ (analyze_sentiment text).score ≤ 1 := by
  rw [analyze_sentiment_eq]
  rcases Nat.lt_trichotomy (negCount text) (posCount text) with h | h | h
  · rw [if_pos h]
    refine ⟨Or.inl rfl, fun _ => ⟨rfl, (score_pos _).symm, rfl⟩,
      fun h2 => absurd h (by omega), fun h2 => absurd h (by omega), ?_⟩
    exact score_bounds_pos _
  · rw [if_neg (by omega), if_neg (by omega)]
    refine ⟨Or.inr (Or.inr rfl), fun h2 => absurd h (by omega),
      fun h2 => absurd h (by omega), fun _ => ⟨rfl, rfl⟩, by norm_num⟩
  · rw [if_neg (by omega), if_pos h]
    refine ⟨Or.inr (Or.inl rfl), fun h2 => absurd h (by omega),
      fun _ => ⟨rfl, (score_neg _).symm, rfl⟩, fun h2 => absurd h (by omega), ?_⟩
    have h1 : 0 ≤ min ((negCount text : ℚ) * (1/10)) (1/2) := le_min (by positivity) (by norm_num)
    have h2 : min ((negCount text : ℚ) * (1/10)) (1/2) ≤ 1/2 := min_le_right _ _
    constructor <;> dsimp only <;> linarith

/-- Witness for C1 at the text `great win crisis` (two positive keywords,
one negative keyword, so the positive branch applies with score 0.7). -/
theorem C1_classifier_spec_witness :
    negCount "great win crisis".toList < posCount "great win crisis".toList ∧
    ((analyze_sentiment "great win crisis".toList).sentiment = Sentiment.positive ∧
      (analyze_sentiment "great win crisis".toList).score =
        pyRound 2 (1/2 + min ((posCount "great win crisis".toList : ℚ) * (1/10)) (1/2)) ∧
      (analyze_sentiment "great win crisis".toList).score =
        1/2 + min ((posCount "great win crisis".toList : ℚ) * (1/10)) (1/2)) :=
  ⟨by decide, (C1_classifier_spec "great win crisis".toList).2.1 (by decide)⟩

/-- The sample article of the spec's single-article scenario. -/
def artATitle : Text := "Anura announces fuel subsidy, great success".toList

/-- The sample article wrapped with a source id. -/
def artA : Article := ⟨artATitle, "adaderana".toList⟩

/-- Claim C2: finalization gives every entity with mentions > 0 the derived
fields `media_share = round(mentions / max(1, total_mentions) * 100, 1)` and
`sentiment_score = round((positive - negative) / mentions, 2)`, and every
entity with zero mentions gets `media_share = 0` and `sentiment_score = 0`. -/
theorem C2_finalization_spec (articles : List Article) (pl : Player) :
    (0 < ((processArticles articles) pl).mentions →
      ((calculate_metrics articles).players pl).media_share =
        pyRound 1 ((((processArticles articles) pl).mentions : ℚ) /
          ((max 1 (total_mentions_of (processArticles articles)) : ℕ) : ℚ) * 100) ∧
      ((calculate_metrics articles).players pl).sentiment_score =
        pyRound 2 (((((processArticles articles) pl).positive : ℚ) -
            (((processArticles articles) pl).negative : ℚ)) /
          (((processArticles articles) pl).mentions : ℚ))) ∧
    (((processArticles articles) pl).mentions = 0 →
      ((calculate_metrics articles).players pl).media_share = 0 ∧
      ((calculate_metrics articles).players pl).sentiment_score = 0) := by
  unfold calculate_metrics finalizeStats
  dsimp only
  constructor
  · intro h
    rw [if_pos h]
    exact ⟨rfl, rfl⟩
  · intro h
    rw [if_neg (by omega)]
    exact ⟨rfl, rfl⟩

/-- Witness for C2: the single sample article mentions `anura`, whose derived
fields then satisfy the finalization formulas. -/
theorem C2_finalization_spec_witness :
    0 < ((processArticles [artA]) Player.anura).mentions ∧
    (((calculate_metrics [artA]).players Player.anura).media_share =
        pyRound 1 ((((processArticles [artA]) Player.anura).mentions : ℚ) /
          ((max 1 (total_mentions_of (processArticles [artA])) : ℕ) : ℚ) * 100) ∧
      ((calculate_metrics [artA]).players Player.anura).sentiment_score =
        pyRound 2 (((((processArticles [artA]) Player.anura).positive : ℚ) -
            (((processArticles [artA]) Player.anura).negative : ℚ)) /
          (((processArticles [artA]) Player.anura).mentions : ℚ))) :=
  ⟨by decide, (C2_finalization_spec [artA] Player.anura).1 (by decide)⟩

theorem accumArticle_mentioned (st : Player → PStats) (a : Article) (pl : Player)
    (h : detect_player a.title pl = true) :
    (accumArticle st a pl).mentions = (st pl).mentions + 1 ∧
    (accumArticle st a pl).positive + (accumArticle st a pl).negative +
        (accumArticle st a pl).neutral =
      (st pl).positive + (st pl).negative + (st pl).neutral + 1 ∧
    (accumArticle st a pl).crisis_associated =
      (st pl).crisis_associated + (analyze_sentiment a.title).crisis_indicators := by
  unfold accumArticle
  rw [h]
  dsimp only [if_true]
  refine ⟨rfl, ?_, rfl⟩
  rcases hs : (analyze_sentiment a.title).sentiment <;> simp [hs] <;> ring

theorem accumArticle_not_mentioned (st : Player → PStats) (a : Article) (pl : Player)
    (h : detect_player a.title pl = false) :
    accumArticle st a pl = st pl := by
  unfold accumArticle
  rw [h]
  simp

theorem foldl_counts_inv (l : List Article) (st : Player → PStats)
    (h : ∀ pl, (st pl).mentions = (st pl).positive + (st pl).negative + (st pl).neutral)
    (pl : Player) :
    (l.foldl accumArticle st pl).mentions =
      (l.foldl accumArticle st pl).positive + (l.foldl accumArticle st pl).negative +
        (l.foldl accumArticle st pl).neutral := by
  induction l generalizing st with
  | nil => exact h pl
  | cons a t ih =>
      simp only [List.foldl_cons]
      apply ih
      intro q
      cases hd : detect_player a.title q with
      | false => rw [accumArticle_not_mentioned st a q hd]; exact h q
      | true =>
          obtain ⟨h1, h2, _⟩ := accumArticle_mentioned st a q hd
          have h3 := h q
          omega

/-- Claim C3: for every prefix of the article list (including the final
state) every entity's mention count equals the sum of its positive, negative
and neutral counts, and each accumulation that increments mentions by 1 also
increments the sum of the three label counts by exactly 1. -/
theorem C3_mentions_invariant (articles pre : List Article)
    (_h : ∃ rest, articles = pre ++ rest) (pl : Player) :
    ((processArticles pre) pl).mentions =
      ((processArticles pre) pl).positive + ((processArticles pre) pl).negative +
        ((processArticles pre) pl).neutral ∧
    ∀ (st : Player → PStats) (a : Article),
      detect_player a.title pl = true →
        (accumArticle st a pl).mentions = (st pl).mentions + 1 ∧
        (accumArticle st a pl).positive + (accumArticle st a pl).negative +
            (accumArticle st a pl).neutral =
          (st pl).positive + (st pl).negative + (st pl).neutral + 1 := by
  refine ⟨foldl_counts_inv pre initStats (fun _ => rfl) pl, fun st a hd => ?_⟩
  obtain ⟨h1, h2, _⟩ := accumArticle_mentioned st a pl hd
  exact ⟨h1, h2⟩

/-- Witness for C3 with the one-article list as its own (improper) prefix. -/
theorem C3_mentions_invariant_witness :
    ((processArticles [artA]) Player.anura).mentions =
      ((processArticles [artA]) Player.anura).positive +
        ((processArticles [artA]) Player.anura).negative +
        ((processArticles [artA]) Player.anura).neutral :=
  (C3_mentions_invariant [artA] [artA] ⟨[], (List.append_nil _).symm⟩ Player.anura).1

theorem sum_mentions_accum (st : Player → PStats) (a : Article) (L : List Player) :
    (L.map (fun p => (accumArticle st a p).mentions)).sum =
      (L.map (fun p => (st p).mentions)).sum +
        (L.filter (fun p => detect_player a.title p)).length := by
  induction L with
  | nil => simp
  | cons q t ih =>
      simp only [List.map_cons, List.sum_cons, List.filter_cons]
      cases hd : detect_player a.title q with
      | false =>
          rw [accumArticle_not_mentioned st a q hd]
          simp only [hd, Bool.false_eq_true, if_false]
          omega
      | true =>
          have h1 := (accumArticle_mentioned st a q hd).1
          simp only [hd, if_true, List.length_cons, h1]
          omega

/-- Claim C4: one article fans out fully and independently to every matched
entity (mentions +1 and the article's crisis count added for each matched
entity, unmatched entities untouched), so it raises the cross-entity mention
total by the number of entities it matches, and `total_mentions` is the sum
of mentions over all entities. -/
theorem C4_fanout_spec (st : Player → PStats) (a : Article) :
    total_mentions_of (accumArticle st a) =
      total_mentions_of st +
        (playersOrder.filter (fun p => detect_player a.title p)).length ∧
    (∀ pl, detect_player a.title pl = true →
      (accumArticle st a pl).mentions = (st pl).mentions + 1 ∧
      (accumArticle st a pl).crisis_associated =
        (st pl).crisis_associated + (analyze_sentiment a.title).crisis_indicators) ∧
    (∀ pl, detect_player a.title pl = false → accumArticle st a pl = st pl) ∧
    ∀ articles : List Article,
      (calculate_metrics articles).total_mentions =
        (playersOrder.map (fun p => ((processArticles articles) p).mentions)).sum := by
  refine ⟨sum_mentions_accum st a playersOrder, fun pl hd => ?_, fun pl hd =>
    accumArticle_not_mentioned st a pl hd, fun _ => rfl⟩
  obtain ⟨h1, _, h3⟩ := accumArticle_mentioned st a pl hd
  exact ⟨h1, h3⟩

/-- An article whose title matches the three opposition entities at once. -/
def art3 : Article := ⟨"dilith sajith namal meet".toList, "dailymirror".toList⟩

/-- Witness for C4: an article matching exactly three entities raises the
mention total by 3, and on a one-article run `total_mentions = 3` exceeds
`total_articles = 1`. -/
theorem C4_fanout_spec_witness :
    (detect_player art3.title Player.dilith = true ∧
      (accumArticle initStats art3 Player.dilith).mentions =
        (initStats Player.dilith).mentions + 1) ∧
    total_mentions_of (accumArticle initStats art3) = total_mentions_of initStats + 3 ∧
    (calculate_metrics [art3]).total_mentions = 3 ∧
    (calculate_metrics [art3]).total_articles = 1 := by
  refine ⟨⟨by decide, ((C4_fanout_spec initStats art3).2.1 Player.dilith (by decide)).1⟩, ?_, ?_, rfl⟩
  · rw [(C4_fanout_spec initStats art3).1]
    decide
  · rw [(C4_fanout_spec initStats art3).2.2.2 [art3]]
    decide

theorem domPlayer_spec (st : Player → PStats) (q : Player) :
    (st q).mentions ≤ (st (domPlayer st)).mentions ∧
      (idx q < idx (domPlayer st) → (st q).mentions < (st (domPlayer st)).mentions) := by
  unfold domPlayer
  simp only [List.foldl_cons, List.foldl_nil]
  split_ifs <;> cases q <;> simp only [idx] <;> omega

/-- Claim C5: `war_intensity = min(10, sum(crisis exposure) / max(1, total_articles) * 5)`,
and `dominant_player` is the entity with the highest mention count, ties
broken by configuration iteration order (first entity reaching the maximum),
with the sentinel `none` when `total_mentions` is 0. -/
theorem C5_run_metrics_spec (articles : List Article) :
    (calculate_metrics articles).war_intensity =
      min 10 (((playersOrder.map (fun p => ((processArticles articles) p).crisis_associated)).sum : ℚ)
        / ((max 1 articles.length : ℕ) : ℚ) * 5) ∧
    ((calculate_metrics articles).total_mentions = 0 →
      (calculate_metrics articles).dominant_player = none) ∧
    (0 < (calculate_metrics articles).total_mentions →
      ∃ p, (calculate_metrics articles).dominant_player = some p ∧
        (∀ q, ((processArticles articles) q).mentions ≤ ((processArticles articles) p).mentions) ∧
        (∀ q, idx q < idx p →
          ((processArticles articles) q).mentions < ((processArticles articles) p).mentions)) := by
  refine ⟨rfl, fun h => ?_, fun h => ?_⟩
  · have h0 : total_mentions_of (processArticles articles) = 0 := h
    unfold calculate_metrics
    dsimp only
    rw [if_neg (by omega)]
  · have h0 : 0 < total_mentions_of (processArticles articles) := h
    refine ⟨domPlayer (processArticles articles), ?_,
      fun q => (domPlayer_spec (processArticles articles) q).1,
      fun q => (domPlayer_spec (processArticles articles) q).2⟩
    unfold calculate_metrics
    dsimp only
    rw [if_pos h0]

/-- Witness for C5: the sample run has a positive mention total, so a
dominant player exists and majorizes every player's mention count. -/
theorem C5_run_metrics_spec_witness :
    0 < (calculate_metrics [artA]).total_mentions ∧
    ∃ p, (calculate_metrics [artA]).dominant_player = some p ∧
      (∀ q, ((processArticles [artA]) q).mentions ≤ ((processArticles [artA]) p).mentions) ∧
      (∀ q, idx q < idx p →
        ((processArticles [artA]) q).mentions < ((processArticles [artA]) p).mentions) :=
  ⟨by decide, (C5_run_metrics_spec [artA]).2.2 (by decide)⟩

/-- Claim C6: for entities with mentions > 0 the report's posture is
`attacking` when `negative/mentions > 0.4` (checked first), else `defending`
when `positive/mentions > 0.4`, else `neutral`; the trend is `rising` when
`sentiment_score > 0.1`, `falling` when `sentiment_score < -0.1`, else
`stable`; entities with zero mentions get posture `neutral`, trend `stable`. -/
theorem C6_posture_trend_spec (m : Metrics) (pl : Player) :
    (0 < (m.players pl).mentions →
      (((2 : ℚ)/5 < ((m.players pl).negative : ℚ) / ((m.players pl).mentions : ℚ) →
          ((generate_report m).battlefield_status pl).posture = Posture.attacking) ∧
       (¬((2 : ℚ)/5 < ((m.players pl).negative : ℚ) / ((m.players pl).mentions : ℚ)) →
          (2 : ℚ)/5 < ((m.players pl).positive : ℚ) / ((m.players pl).mentions : ℚ) →
          ((generate_report m).battlefield_status pl).posture = Posture.defending) ∧
       (¬((2 : ℚ)/5 < ((m.players pl).negative : ℚ) / ((m.players pl).mentions : ℚ)) →
          ¬((2 : ℚ)/5 < ((m.players pl).positive : ℚ) / ((m.players pl).mentions : ℚ)) →
          ((generate_report m).battlefield_status pl).posture = Posture.neutral) ∧
       ((1 : ℚ)/10 < (m.players pl).sentiment_score →
          ((generate_report m).battlefield_status pl).trend = Trend.rising) ∧
       ((m.players pl).sentiment_score < -(1/10) →
          ((generate_report m).battlefield_status pl).trend = Trend.falling) ∧
       (¬((1 : ℚ)/10 < (m.players pl).sentiment_score) →
          ¬((m.players pl).sentiment_score < -(1/10)) →
          ((generate_report m).battlefield_status pl).trend = Trend.stable))) ∧
    ((m.players pl).mentions = 0 →
      ((generate_report m).battlefield_status pl).posture = Posture.neutral ∧
      ((generate_report m).battlefield_status pl).trend = Trend.stable) := by
  have hbs : (generate_report m).battlefield_status pl = statusOf (m.players pl) := rfl
  rw [hbs]
  unfold statusOf
  constructor
  · intro h
    rw [if_pos h]
    refine ⟨fun h1 => ?_, fun h1 h2 => ?_, fun h1 h2 => ?_, fun h1 => ?_, fun h1 => ?_,
      fun h1 h2 => ?_⟩
    · dsimp only
      rw [if_pos h1]
    · dsimp only
      rw [if_neg h1, if_pos h2]
    · dsimp only
      rw [if_neg h1, if_neg h2]
    · dsimp only
      rw [if_pos h1]
    · dsimp only
      rw [if_neg (by linarith), if_pos h1]
    · dsimp only
      rw [if_neg h1, if_neg h2]
  · intro h
    rw [if_neg (by omega)]
    exact ⟨rfl, rfl⟩

/-- An all-negative sample article mentioning only `anura`. -/
def artNeg : Article := ⟨"anura crisis fail disaster".toList, "newsfirst".toList⟩

/-- Witness for C6: in a run where `anura` has one mention, all negative, the
attack ratio exceeds 0.4 and the reported posture is `attacking`. -/
theorem C6_posture_trend_spec_witness :
    0 < ((calculate_metrics [artNeg]).players Player.anura).mentions ∧
    (2 : ℚ)/5 < (((calculate_metrics [artNeg]).players Player.anura).negative : ℚ) /
      (((calculate_metrics [artNeg]).players Player.anura).mentions : ℚ) ∧
    ((generate_report (calculate_metrics [artNeg])).battlefield_status Player.anura).posture =
      Posture.attacking := by
  have h1 : ((calculate_metrics [artNeg]).players Player.anura).mentions = 1 := by decide
  have h2 : ((calculate_metrics [artNeg]).players Player.anura).negative = 1 := by decide
  have hr : (2 : ℚ)/5 < (((calculate_metrics [artNeg]).players Player.anura).negative : ℚ) /
      (((calculate_metrics [artNeg]).players Player.anura).mentions : ℚ) := by
    rw [h1, h2]
    norm_num
  exact ⟨by decide, hr,
    ((C6_posture_trend_spec (calculate_metrics [artNeg]) Player.anura).1 (by decide)).1 hr⟩

/-- Claim C7: the coalition prediction compares the combined mentions of the
three opposition entities with 60% of `total_mentions`: over the threshold it
is `{0.73, "2-4 weeks", dilith}`, otherwise `{0.45, "Uncertain", none}`; a
combined share of 70% selects the over-threshold branch. -/
theorem C7_coalition_spec (m : Metrics) :
    (((m.total_mentions : ℚ) * (6/10) <
        (([Player.dilith, Player.sajith, Player.namal].map
          (fun p => (m.players p).mentions)).sum : ℚ)) →
      (generate_report m).coalition = ⟨73/100, "2-4 weeks", some Player.dilith⟩) ∧
    (¬((m.total_mentions : ℚ) * (6/10) <
        (([Player.dilith, Player.sajith, Player.namal].map
          (fun p => (m.players p).mentions)).sum : ℚ)) →
      (generate_report m).coalition = ⟨45/100, "Uncertain", none⟩) ∧
    (((([Player.dilith, Player.sajith, Player.namal].map
          (fun p => (m.players p).mentions)).sum : ℚ) =
        (m.total_mentions : ℚ) * (7/10)) → 0 < m.total_mentions →
      (generate_report m).coalition.formation_probability = 73/100) := by
  have hco : (generate_report m).coalition =
      if (m.total_mentions : ℚ) * (6/10) <
          (([Player.dilith, Player.sajith, Player.namal].map
            (fun p => (m.players p).mentions)).sum : ℚ) then
        ⟨73/100, "2-4 weeks", some Player.dilith⟩
      else ⟨45/100, "Uncertain", none⟩ := rfl
  refine ⟨fun h => ?_, fun h => ?_, fun h hpos => ?_⟩
  · rw [hco, if_pos h]
  · rw [hco, if_neg h]
  · have htm : (0 : ℚ) < (m.total_mentions : ℚ) := by exact_mod_cast hpos
    have h6 : (m.total_mentions : ℚ) * (6/10) <
        (([Player.dilith, Player.sajith, Player.namal].map
          (fun p => (m.players p).mentions)).sum : ℚ) := by
      rw [h]
      nlinarith
    rw [hco, if_pos h6]

/-- A hand-built finalized metrics value: 10 total mentions, 7 of them on the
opposition side (all on `dilith`), 3 on `anura`. -/
def wmPlayers : Player → FStats :=
  fun p => match p with
    | Player.dilith => ⟨7, 0, 0, 7, 0, [], 70, 0⟩
    | Player.anura => ⟨3, 0, 0, 3, 0, [], 30, 0⟩
    | _ => ⟨0, 0, 0, 0, 0, [], 0, 0⟩

/-- The metrics record for the 70%-opposition-share scenario. -/
def wm : Metrics :=
  { players := wmPlayers
    total_articles := 10
    total_mentions := 10
    war_intensity := 0
    dominant_player := some Player.dilith }

/-- Witness for C7: with opposition mentions at exactly 70% of a positive
mention total, the over-threshold branch (probability 0.73) is selected. -/
theorem C7_coalition_spec_witness :
    ((([Player.dilith, Player.sajith, Player.namal].map
        (fun p => (wm.players p).mentions)).sum : ℚ) =
      (wm.total_mentions : ℚ) * (7/10)) ∧ 0 < wm.total_mentions ∧
    (generate_report wm).coalition.formation_probability = 73/100 := by
  have hs : ([Player.dilith, Player.sajith, Player.namal].map
      (fun p => (wm.players p).mentions)).sum = 7 := by decide
  have ht : wm.total_mentions = 10 := rfl
  have h : ((([Player.dilith, Player.sajith, Player.namal].map
      (fun p => (wm.players p).mentions)).sum : ℚ) =
      (wm.total_mentions : ℚ) * (7/10)) := by
    rw [hs, ht]
    norm_num
  exact ⟨h, by decide, (C7_coalition_spec wm).2.2 h (by decide)⟩

/-- Claim C8: a run with zero articles still produces a fully-populated
metrics value: `total_articles = 0`, `total_mentions = 0`,
`war_intensity = 0`, `dominant_player = none`, and every entity has
`media_share = 0` and `sentiment_score = 0`. -/
theorem C8_empty_run_spec :
    (calculate_metrics []).total_articles = 0 ∧
    (calculate_metrics []).total_mentions = 0 ∧
    (calculate_metrics []).war_intensity = 0 ∧
    (calculate_metrics []).dominant_player = none ∧
    ∀ pl, ((calculate_metrics []).players pl).media_share = 0 ∧
      ((calculate_metrics []).players pl).sentiment_score = 0 := by
  refine ⟨rfl, rfl, ?_, rfl, fun pl => ?_⟩
  · have hcrisis : (playersOrder.map
        (fun p => ((processArticles ([] : List Article)) p).crisis_associated)).sum = 0 := rfl
    unfold calculate_metrics
    dsimp only
    rw [hcrisis]
    norm_num
  · cases pl <;> exact ⟨rfl, rfl⟩

/-- Counterexample to claim C9: on the title
`Anura announces fuel subsidy, great success` the classifier's score is
0.7 (two positive keywords, `great` and `success`), not the claimed 0.6. -/
theorem C9_scenario_counterexample :
    (analyze_sentiment artATitle).score = 7/10 ∧
    ¬((analyze_sentiment artATitle).score = 6/10) := by
  have hp : posCount artATitle = 2 := by decide
  have hlt : negCount artATitle < posCount artATitle := by decide
  have hs : (analyze_sentiment artATitle).score = 7/10 := by
    rw [analyze_sentiment_eq, if_pos hlt]
    dsimp only
    rw [hp, min_eq_left (by norm_num)]
    norm_num
  refine ⟨hs, ?_⟩
  rw [hs]
  norm_num

/-- Claim C9 as amended: the title
`Anura announces fuel subsidy, great success` marks entity `anura` and no
other tracked entity, and the classifier returns label positive with
score 0.7 (`pos_count = 2`). -/
theorem C9_scenario_amended :
    detect_player artATitle Player.anura = true ∧
    detect_player artATitle Player.dilith = false ∧
    detect_player artATitle Player.sajith = false ∧
    detect_player artATitle Player.namal = false ∧
    detect_player artATitle Player.ranil = false ∧
    (analyze_sentiment artATitle).sentiment = Sentiment.positive ∧
    (analyze_sentiment artATitle).score = 7/10 := by
  have hp : posCount artATitle = 2 := by decide
  have hlt : negCount artATitle < posCount artATitle := by decide
  refine ⟨by decide, by decide, by decide, by decide, by decide, by decide, ?_⟩
  rw [analyze_sentiment_eq, if_pos hlt]
  dsimp only
  rw [hp, min_eq_left (by norm_num)]
  norm_num

/-- Claim C10: the keyword `crisis` appears in both the negative list and the
crisis-indicator list, so every text containing it as a case-insensitive
substring has `neg_count ≥ 1` and `crisis_count ≥ 1`; the text `crisis`
itself, whose only configured keyword hit is `crisis`, is labelled negative
with score 0.4 and one crisis indicator. -/
theorem C10_crisis_double_count :
    ("crisis".toList ∈ negativeWords ∧ "crisis".toList ∈ crisisWords) ∧
    (∀ t : Text, hasSub "crisis".toList (lowerText t) = true →
      1 ≤ negCount t ∧ 1 ≤ crisisCount t) ∧
    (analyze_sentiment "crisis".toList).sentiment = Sentiment.negative ∧
    (analyze_sentiment "crisis".toList).score = 2/5 ∧
    (analyze_sentiment "crisis".toList).crisis_indicators = 1 := by
  have hn : negCount "crisis".toList = 1 := by decide
  have hlt : posCount "crisis".toList < negCount "crisis".toList := by decide
  have hnlt : ¬(negCount "crisis".toList < posCount "crisis".toList) := by decide
  refine ⟨⟨by decide, by decide⟩, fun t ht => ?_, by decide, ?_, by decide⟩
  · constructor
    · have hm : "crisis".toList ∈ negativeWords.filter (fun w => hasSub w (lowerText t)) :=
        List.mem_filter.mpr ⟨by decide, ht⟩
      have := List.length_pos_of_mem hm
      unfold negCount
      omega
    · have hm : "crisis".toList ∈ crisisWords.filter (fun w => hasSub w (lowerText t)) :=
        List.mem_filter.mpr ⟨by decide, ht⟩
      have := List.length_pos_of_mem hm
      unfold crisisCount
      omega
  · rw [analyze_sentiment_eq, if_neg hnlt, if_pos hlt]
    dsimp only
    rw [hn, min_eq_left (by norm_num)]
    norm_num

/-- Witness for C10 at the text `imf crisis deepens`, which contains the
substring `crisis` and hence scores at least one negative and one crisis hit. -/
theorem C10_crisis_double_count_witness :
    hasSub "crisis".toList (lowerText "imf crisis deepens".toList) = true ∧
    (1 ≤ negCount "imf crisis deepens".toList ∧
      1 ≤ crisisCount "imf crisis deepens".toList) :=
  ⟨by decide, C10_crisis_double_count.2.1 "imf crisis deepens".toList (by decide)⟩

end PoliticalWar
